import Mathlib

/-!
Shallow embedding of `SceneManager.cpp` (CS330-CompGraphics, OpenGL_FinalScene).

The scene manager keeps a fixed 16-slot texture registry (`m_textureIDs`,
`m_loadedTextures`), an insertion-ordered material list (`m_objectMaterials`),
and a pointer to an external shader-parameter sink (`m_pShaderManager`).
External collaborators are modelled as data:
  * the shader sink receives a trace of `SinkMsg` values;
  * the OpenGL driver receives a trace of `GLEvent` values; texture names
    returned by `glGenTextures` are modelled by a fresh-name counter
    `nextTexId` threaded through the state;
  * the stb image decoder is a parameter `decode : String → Option StbImage`;
  * the mesh provider records draw calls as `MeshKind` events.
Scalars (GLSL floats) are modelled over an arbitrary field `α`; the
trigonometric functions and π used by the glm transform helpers are abstract
(`Trig α`), since only their algebraic placement matters to the claims.
stdout logging (`std::cout`) is not modelled.
-/

namespace SceneMgr

/-- Abstract trigonometry: `cos`, `sin` and π for the scalar type `α`.
For the real scalars of the source this is ordinary trigonometry; the claims
proved below hold for every instance. -/
class Trig (α : Type) where
  cos : α → α
  sin : α → α
  pi : α

/-- One slot of the `m_textureIDs` array: a tag string and a GL texture name
(`ID` is a C `int` in the source, hence `Int` here; −1 marks an empty slot). -/
structure TexEntry where
  tag : String
  id : Int
deriving DecidableEq

/-- `OBJECT_MATERIAL`: diffuse/specular colors, shininess and a tag. -/
structure OBJECT_MATERIAL (α : Type) where
  diffuseColor : α × α × α
  specularColor : α × α × α
  shininess : α
  tag : String

/-- Image data as reported by `stbi_load`: width, height and channel count.
The pixel payload is irrelevant to every claim and is not modelled. -/
structure StbImage where
  width : Int
  height : Int
  channels : Int

/-- The observable state of a `SceneManager` object.

`textureIDs` models the fixed `m_textureIDs[16]` array as a total function;
the source performs no bounds check, so writes at indices ≥ 16 are
out-of-bounds there (see the capacity invariant below).  `nextTexId` models
the GL driver's supply of fresh texture names consumed by `glGenTextures`. -/
structure SceneState (α : Type) where
  hasShader : Bool
  textureIDs : Nat → TexEntry
  loadedTextures : Nat
  objectMaterials : List (OBJECT_MATERIAL α)
  nextTexId : Int

/-- The constructor `SceneManager::SceneManager`: all 16 slots get tag `"/0"`
and ID −1, and `m_loadedTextures` starts at 0. -/
def initialState (α : Type) (hasShader : Bool) : SceneState α where
  hasShader := hasShader
  textureIDs := fun _ => ⟨"/0", -1⟩
  loadedTextures := 0
  objectMaterials := []
  nextTexId := 1

/-- Pointwise update of one slot of the texture array. -/
def updateSlot (f : Nat → TexEntry) (i : Nat) (e : TexEntry) : Nat → TexEntry :=
  fun j => if j = i then e else f j

/-! ### OpenGL constants and event trace -/

def GL_TEXTURE_WRAP_S : Nat := 0x2802
def GL_TEXTURE_WRAP_T : Nat := 0x2803
def GL_TEXTURE_MIN_FILTER : Nat := 0x2801
def GL_TEXTURE_MAG_FILTER : Nat := 0x2800
def GL_REPEAT : Nat := 0x2901
def GL_LINEAR : Nat := 0x2601
def GL_RGB8 : Nat := 0x8051
def GL_RGBA8 : Nat := 0x8058
def GL_RGB : Nat := 0x1907
def GL_RGBA : Nat := 0x1908
def GL_TEXTURE0 : Nat := 0x84C0

/-- GPU-resource operations issued to the GL driver.  `deleteTextures`
(`glDeleteTextures`) is part of the modelled API surface although the source
never issues it - the teardown claim is about exactly this absence. -/
inductive GLEvent where
  | genTextures (id : Int)
  | bindTexture2D (id : Int)
  | texParameteri (pname value : Nat)
  | texImage2D (internalFormat : Nat) (width height : Int) (format : Nat)
  | generateMipmap
  | activeTexture (unit : Nat)
  | deleteTextures (id : Int)
deriving DecidableEq

/-! ### Texture registry operations -/

/-- `SceneManager::CreateGLTexture`.  Returns the new state, the `bool`
result, and the GL trace.  Mirrors the source: a failed decode returns
`false` with nothing done; on a decode the texture object is generated and
configured, then an unsupported channel count returns `false` before the
registry write, while 3- or 4-channel images are uploaded and registered in
slot `m_loadedTextures` (no bounds or duplicate-tag check). -/
def createGLTexture (decode : String → Option StbImage) (s : SceneState α)
    (filename : String) (tag : String) : SceneState α × Bool × List GLEvent :=
  match decode filename with
  | none => (s, false, [])
  | some img =>
    let textureID := s.nextTexId
    let s1 := { s with nextTexId := s.nextTexId + 1 }
    let evs :=
      [GLEvent.genTextures textureID, GLEvent.bindTexture2D textureID,
       GLEvent.texParameteri GL_TEXTURE_WRAP_S GL_REPEAT,
       GLEvent.texParameteri GL_TEXTURE_WRAP_T GL_REPEAT,
       GLEvent.texParameteri GL_TEXTURE_MIN_FILTER GL_LINEAR,
       GLEvent.texParameteri GL_TEXTURE_MAG_FILTER GL_LINEAR]
    if img.channels = 3 then
      ({ s1 with
          textureIDs := updateSlot s1.textureIDs s1.loadedTextures ⟨tag, textureID⟩,
          loadedTextures := s1.loadedTextures + 1 },
       true,
       evs ++ [GLEvent.texImage2D GL_RGB8 img.width img.height GL_RGB,
               GLEvent.generateMipmap, GLEvent.bindTexture2D 0])
    else if img.channels = 4 then
      ({ s1 with
          textureIDs := updateSlot s1.textureIDs s1.loadedTextures ⟨tag, textureID⟩,
          loadedTextures := s1.loadedTextures + 1 },
       true,
       evs ++ [GLEvent.texImage2D GL_RGBA8 img.width img.height GL_RGBA,
               GLEvent.generateMipmap, GLEvent.bindTexture2D 0])
    else
      (s1, false, evs)

/-- The loop body of `BindGLTextures`, from slot `idx` for `remaining` slots. -/
def bindAux (f : Nat → TexEntry) (idx : Nat) : Nat → List GLEvent
  | 0 => []
  | r + 1 =>
    GLEvent.activeTexture (GL_TEXTURE0 + idx) :: GLEvent.bindTexture2D (f idx).id ::
      bindAux f (idx + 1) r

/-- `SceneManager::BindGLTextures`: binds texture `i` on texture unit
`GL_TEXTURE0 + i` for every occupied slot `i < m_loadedTextures`. -/
def bindGLTextures (s : SceneState α) : List GLEvent :=
  bindAux s.textureIDs 0 s.loadedTextures

/-- The loop body of `DestroyGLTextures`: for each occupied slot the source
executes `glGenTextures(1, &m_textureIDs[i].ID)`, i.e. it asks the driver for
a fresh texture name and stores it over the slot's ID. -/
def destroyAux (s : SceneState α) (idx : Nat) : Nat → SceneState α × List GLEvent
  | 0 => (s, [])
  | r + 1 =>
    let newId := s.nextTexId
    let s1 := { s with
      textureIDs := updateSlot s.textureIDs idx ⟨(s.textureIDs idx).tag, newId⟩,
      nextTexId := newId + 1 }
    let rest := destroyAux s1 (idx + 1) r
    (rest.1, GLEvent.genTextures newId :: rest.2)

/-- `SceneManager::DestroyGLTextures` (invoked from the destructor). -/
def destroyGLTextures (s : SceneState α) : SceneState α × List GLEvent :=
  destroyAux s 0 s.loadedTextures

/-- The shared scan loop of `FindTextureID`/`FindTextureSlot`: starting at
`idx` with `remaining` occupied slots left, return the first index whose tag
matches. -/
def scanSlot (f : Nat → TexEntry) (tag : String) (idx : Nat) : Nat → Option Nat
  | 0 => none
  | r + 1 => if (f idx).tag = tag then some idx else scanSlot f tag (idx + 1) r

/-- `SceneManager::FindTextureID`: ID of the first matching slot, else −1. -/
def findTextureID (s : SceneState α) (tag : String) : Int :=
  match scanSlot s.textureIDs tag 0 s.loadedTextures with
  | some i => (s.textureIDs i).id
  | none => -1

/-- `SceneManager::FindTextureSlot`: index of the first matching slot, else −1. -/
def findTextureSlot (s : SceneState α) (tag : String) : Int :=
  match scanSlot s.textureIDs tag 0 s.loadedTextures with
  | some i => Int.ofNat i
  | none => -1

/-! ### Material registry -/

/-- The scan loop of `FindMaterial`: on the first tag match it copies the
diffuse/specular/shininess fields (not the tag) into the out-parameter and
stops; otherwise the out-parameter is returned untouched. -/
def findMatAux (l : List (OBJECT_MATERIAL α)) (tag : String)
    (material : OBJECT_MATERIAL α) : OBJECT_MATERIAL α :=
  match l with
  | [] => material
  | e :: rest =>
    if e.tag = tag then
      { material with
        diffuseColor := e.diffuseColor,
        specularColor := e.specularColor,
        shininess := e.shininess }
    else
      findMatAux rest tag material

/-- `SceneManager::FindMaterial`.  Faithful to the source: an empty list
returns `false`; a non-empty list always returns `true` - the loop's
`bFound` flag only stops the scan and is NOT the returned value, so a missed
tag still yields `true` with the out-parameter unmodified. -/
def findMaterial (mats : List (OBJECT_MATERIAL α)) (tag : String)
    (material : OBJECT_MATERIAL α) : Bool × OBJECT_MATERIAL α :=
  if mats.length = 0 then
    (false, material)
  else
    (true, findMatAux mats tag material)

/-! ### Shader parameter sink -/

/-- One `m_pShaderManager->set...Value` call.  `setIntValue` with a C++ bool
argument carries the implicit bool-to-int conversion (false ↦ 0, true ↦ 1). -/
inductive SinkMsg (α : Type) where
  | mat4Value (name : String) (m : Matrix (Fin 4) (Fin 4) α)
  | intValue (name : String) (v : Int)
  | vec4Value (name : String) (v : α × α × α × α)
  | vec3Value (name : String) (v : α × α × α)
  | vec2Value (name : String) (u v : α)
  | floatValue (name : String) (v : α)
  | boolValue (name : String) (b : Bool)
  | sampler2DValue (name : String) (unit : Int)

/-! ### glm transform helpers

The source composes its model matrix from `glm::scale`, `glm::rotate` and
`glm::translate`.  These are embedded as 4×4 matrices over `α` in the usual
mathematical (row, column) convention; glm stores them column-major but the
products below are the same matrices.  `glm::rotate` normalizes its axis
argument; every call site in the source passes a unit coordinate axis, for
which normalization is the identity, so the Rodrigues entries are taken on
the given axis. -/

/-- `glm::radians`: degrees to radians. -/
def radians [Field α] [Trig α] (deg : α) : α := deg * Trig.pi / 180

/-- `glm::scale(v)`. -/
def glmScale [Field α] (v : α × α × α) : Matrix (Fin 4) (Fin 4) α :=
  !![v.1, 0, 0, 0;
     0, v.2.1, 0, 0;
     0, 0, v.2.2, 0;
     0, 0, 0, 1]

/-- `glm::translate(v)`. -/
def glmTranslate [Field α] (v : α × α × α) : Matrix (Fin 4) (Fin 4) α :=
  !![1, 0, 0, v.1;
     0, 1, 0, v.2.1;
     0, 0, 1, v.2.2;
     0, 0, 0, 1]

/-- `glm::rotate(angle, axis)` for a unit axis: the Rodrigues rotation
matrix, entry for entry as glm builds it. -/
def glmRotate [Field α] [Trig α] (angle : α) (a : α × α × α) :
    Matrix (Fin 4) (Fin 4) α :=
  let c := Trig.cos angle
  let s := Trig.sin angle
  let x := a.1
  let y := a.2.1
  let z := a.2.2
  !![c + (1 - c) * x * x, (1 - c) * y * x - s * z, (1 - c) * z * x + s * y, 0;
     (1 - c) * x * y + s * z, c + (1 - c) * y * y, (1 - c) * z * y - s * x, 0;
     (1 - c) * x * z - s * y, (1 - c) * y * z + s * x, c + (1 - c) * z * z, 0;
     0, 0, 0, 1]

/-- The standard rotation matrix about the X axis, stated independently of
`glmRotate` (this is the matrix the spec's `compose` contract refers to). -/
def rotationXMat [Field α] [Trig α] (angle : α) : Matrix (Fin 4) (Fin 4) α :=
  let c := Trig.cos angle
  let s := Trig.sin angle
  !![1, 0, 0, 0;
     0, c, -s, 0;
     0, s, c, 0;
     0, 0, 0, 1]

/-- The standard rotation matrix about the Y axis. -/
def rotationYMat [Field α] [Trig α] (angle : α) : Matrix (Fin 4) (Fin 4) α :=
  let c := Trig.cos angle
  let s := Trig.sin angle
  !![c, 0, s, 0;
     0, 1, 0, 0;
     -s, 0, c, 0;
     0, 0, 0, 1]

/-- The standard rotation matrix about the Z axis. -/
def rotationZMat [Field α] [Trig α] (angle : α) : Matrix (Fin 4) (Fin 4) α :=
  let c := Trig.cos angle
  let s := Trig.sin angle
  !![c, -s, 0, 0;
     s, c, 0, 0;
     0, 0, 1, 0;
     0, 0, 0, 1]

/-! ### Shading state dispatch -/

/-- `SceneManager::SetTransformations`: builds scale, per-axis rotation
(degrees converted by `glm::radians`) and translation matrices, multiplies
them as `translation * rotationZ * rotationY * rotationX * scale`, and sends
the product as the `"model"` uniform when the shader pointer is non-null. -/
def setTransformations [Field α] [Trig α] (s : SceneState α)
    (scaleXYZ : α × α × α) (XrotationDegrees YrotationDegrees ZrotationDegrees : α)
    (positionXYZ : α × α × α) : List (SinkMsg α) :=
  let scale := glmScale scaleXYZ
  let rotationX := glmRotate (radians XrotationDegrees) (1, 0, 0)
  let rotationY := glmRotate (radians YrotationDegrees) (0, 1, 0)
  let rotationZ := glmRotate (radians ZrotationDegrees) (0, 0, 1)
  let translation := glmTranslate positionXYZ
  let modelView := translation * rotationZ * rotationY * rotationX * scale
  if s.hasShader then [SinkMsg.mat4Value "model" modelView] else []

/-- `SceneManager::SetShaderColor`: guarded by the null check. -/
def setShaderColor (s : SceneState α) (r g b a : α) : List (SinkMsg α) :=
  if s.hasShader then
    [SinkMsg.intValue "bUseTexture" 0, SinkMsg.vec4Value "objectColor" (r, g, b, a)]
  else []

/-- `SceneManager::SetShaderTexture`: guarded by the null check; resolves the
tag through `FindTextureSlot` and sends whatever that returns (−1 included). -/
def setShaderTexture (s : SceneState α) (textureTag : String) : List (SinkMsg α) :=
  if s.hasShader then
    [SinkMsg.intValue "bUseTexture" 1,
     SinkMsg.sampler2DValue "objectTexture" (findTextureSlot s textureTag)]
  else []

/-- `SceneManager::SetTextureUVScale`: guarded by the null check. -/
def setTextureUVScale (s : SceneState α) (u v : α) : List (SinkMsg α) :=
  if s.hasShader then [SinkMsg.vec2Value "UVscale" u v] else []

/-- `SceneManager::SetShaderMaterial`.  `junk` models the indeterminate value
of the uninitialized local `OBJECT_MATERIAL material;`.  Faithful to the
source: there is NO null check on the shader pointer here - when the material
list is non-empty and `FindMaterial` reports success the uniforms are sent
unconditionally (a null `m_pShaderManager` would be dereferenced). -/
def setShaderMaterial (s : SceneState α) (junk : OBJECT_MATERIAL α)
    (materialTag : String) : List (SinkMsg α) :=
  if s.objectMaterials.length > 0 then
    let r := findMaterial s.objectMaterials materialTag junk
    if r.1 then
      [SinkMsg.vec3Value "material.diffuseColor" r.2.diffuseColor,
       SinkMsg.vec3Value "material.specularColor" r.2.specularColor,
       SinkMsg.floatValue "material.shininess" r.2.shininess]
    else []
  else []

/-! ### Scene preparation -/

/-- The primitive meshes of the external `ShapeMeshes` provider. -/
inductive MeshKind where
  | plane
  | box
  | cylinder
  | taperedCylinder
  | torus
  | sphere
  | halfSphere
deriving DecidableEq

/-- `SceneManager::LoadSceneTextures`: nine `CreateGLTexture` calls (each
`bReturn` is overwritten and ignored, as in the source) followed by
`BindGLTextures`. -/
def loadSceneTextures [Field α] (decode : String → Option StbImage)
    (s : SceneState α) : SceneState α × List GLEvent :=
  let r1 := createGLTexture decode s "textures/cork.jpg" "bottle-cork"
  let r2 := createGLTexture decode r1.1 "textures/draught-living-death.jpg" "draught-potion"
  let r3 := createGLTexture decode r2.1 "textures/twine-black.png" "black-twine"
  let r4 := createGLTexture decode r3.1 "textures/wood-seamless.jpg" "table"
  let r5 := createGLTexture decode r4.1 "textures/twine-brown.png" "brown-twine"
  let r6 := createGLTexture decode r5.1 "textures/wall.jpg" "background"
  let r7 := createGLTexture decode r6.1 "textures/amortentia.jpg" "love-potion"
  let r8 := createGLTexture decode r7.1 "textures/felix.jpg" "lucky-potion"
  let r9 := createGLTexture decode r8.1 "textures/thunderbrew.jpg" "stun-potion"
  (r9.1,
   r1.2.2 ++ r2.2.2 ++ r3.2.2 ++ r4.2.2 ++ r5.2.2 ++ r6.2.2 ++ r7.2.2 ++ r8.2.2 ++
     r9.2.2 ++ bindGLTextures r9.1)

/-- `SceneManager::DefineObjectMaterials`: appends the seven scene materials,
with the exact literals of the source, to `m_objectMaterials`. -/
def defineObjectMaterials [Field α] (s : SceneState α) : SceneState α :=
  { s with objectMaterials := s.objectMaterials ++
      [⟨(0.2, 0.2, 0.3), (0, 0, 0), 0.1, "wood"⟩,
       ⟨(0.478, 0.478, 0.478), (1, 1, 1), 98, "glass"⟩,
       ⟨(0.8, 0.8, 0.9), (0, 0, 0), 2, "wall"⟩,
       ⟨(0.1, 0.1, 0.1), (0.1, 0.1, 0.1), 0.2, "twine"⟩,
       ⟨(0.329, 0.212, 0.4), (0.1, 0.05, 0.1), 0.5, "liquid"⟩,
       ⟨(0.929, 0.961, 0.424), (0.1, 0.1, 0.1), 0.7, "felixGlow"⟩,
       ⟨(0.922, 0.435, 0.773), (0.1, 0.1, 0.1), 0.7, "loveGlow"⟩] }

/-- `SceneManager::SetupSceneLights`: pushes the lighting uniforms.  The
source dereferences the shader pointer with no null guard, so the messages
are emitted unconditionally; no member state is written. -/
def setupSceneLights [Field α] (_s : SceneState α) : List (SinkMsg α) :=
  [SinkMsg.boolValue "bUseLighting" true,
   SinkMsg.vec3Value "directionalLight.direction" (-0.05, -0.3, -0.1),
   SinkMsg.vec3Value "directionalLight.ambient" (0.05, 0.05, 0.05),
   SinkMsg.vec3Value "directionalLight.diffuse" (0.6, 0.6, 0.6),
   SinkMsg.vec3Value "directionalLight.specular" (0, 0, 0),
   SinkMsg.boolValue "directionalLight.bActive" true,
   SinkMsg.vec3Value "pointLights[0].position" (-4, 8, 0),
   SinkMsg.vec3Value "pointLights[0].ambient" (0.05, 0.05, 0.05),
   SinkMsg.vec3Value "pointLights[0].diffuse" (0.3, 0.3, 0.3),
   SinkMsg.vec3Value "pointLights[0].specular" (0.1, 0.1, 0.1),
   SinkMsg.boolValue "pointLights[0].bActive" true,
   SinkMsg.vec3Value "pointLights[1].position" (4, 8, 0),
   SinkMsg.vec3Value "pointLights[1].ambient" (0.05, 0.05, 0.05),
   SinkMsg.vec3Value "pointLights[1].diffuse" (0.3, 0.3, 0.3),
   SinkMsg.vec3Value "pointLights[1].specular" (0.1, 0.1, 0.1),
   SinkMsg.boolValue "pointLights[1].bActive" true,
   SinkMsg.vec3Value "pointLights[2].position" (3.8, 5.5, 4),
   SinkMsg.vec3Value "pointLights[2].ambient" (0.05, 0.05, 0.05),
   SinkMsg.vec3Value "pointLights[2].diffuse" (0.2, 0.2, 0.2),
   SinkMsg.vec3Value "pointLights[2].specular" (0.8, 0.8, 0.8),
   SinkMsg.boolValue "pointLights[2].bActive" true,
   SinkMsg.vec3Value "pointLights[3].position" (5, 6.5, 6),
   SinkMsg.vec3Value "pointLights[3].ambient" (0.05, 0.05, 0.05),
   SinkMsg.vec3Value "pointLights[3].diffuse" (0.2, 0.2, 0.2),
   SinkMsg.vec3Value "pointLights[3].specular" (0.8, 0.8, 0.8),
   SinkMsg.boolValue "pointLights[3].bActive" true]

/-- `SceneManager::PrepareScene`: textures, materials, lights, then the six
mesh loads.  Returns the new state, the GL trace, the sink trace and the
list of meshes loaded. -/
def prepareScene [Field α] (decode : String → Option StbImage)
    (s : SceneState α) :
    SceneState α × List GLEvent × List (SinkMsg α) × List MeshKind :=
  let r := loadSceneTextures decode s
  let s2 := defineObjectMaterials r.1
  let lightMsgs := setupSceneLights s2
  (s2, r.2, lightMsgs,
   [MeshKind.plane, MeshKind.cylinder, MeshKind.taperedCylinder,
    MeshKind.torus, MeshKind.sphere, MeshKind.box])

/-! ### The scene script (`RenderScene` and its per-object helpers)

Each `Render...` method is a straight-line sequence of `Set...` calls and
`Draw...Mesh` calls; none of them writes any member state.  `junk` is the
indeterminate value of the uninitialized local inside `SetShaderMaterial`
(the same model value is used for every call).  The trace interleaves sink
messages and draw calls in source order. -/

/-- One observable effect of the render pass: a shader-sink call or a draw. -/
inductive Event (α : Type) where
  | sink (m : SinkMsg α)
  | draw (k : MeshKind)

/-- Lift a sink-message list into the event trace. -/
def sinkEvents (l : List (SinkMsg α)) : List (Event α) :=
  l.map Event.sink

/-- `SceneManager::RenderBackground`. -/
def renderBackground [Field α] [Trig α] (s : SceneState α)
    (junk : OBJECT_MATERIAL α) : List (Event α) :=
  sinkEvents (setTransformations s (20, 0.5, -10) 90 0 0 (0, 0, -9.1)) ++
  sinkEvents (setShaderColor s 0.929 0.835 0.784 1) ++
  sinkEvents (setShaderTexture s "background") ++
  sinkEvents (setTextureUVScale s 5 5) ++
  sinkEvents (setShaderMaterial s junk "wall") ++
  [Event.draw MeshKind.plane]

/-- `SceneManager::RenderTable`. -/
def renderTable [Field α] [Trig α] (s : SceneState α)
    (junk : OBJECT_MATERIAL α) : List (Event α) :=
  sinkEvents (setTransformations s (20, 0.6, 8) 0 0 0 (0, -0.3, -5)) ++
  sinkEvents (setShaderTexture s "table") ++
  sinkEvents (setTextureUVScale s 1 1) ++
  sinkEvents (setShaderMaterial s junk "wood") ++
  [Event.draw MeshKind.box]

/-- `SceneManager::RenderDraughtLivingDeath`. -/
def renderDraughtLivingDeath [Field α] [Trig α] (s : SceneState α)
    (junk : OBJECT_MATERIAL α) : List (Event α) :=
  sinkEvents (setTransformations s (0.8, 3, 0.7) 0 0 0 (0, 0, -7)) ++
  sinkEvents (setShaderTexture s "draught-potion") ++
  sinkEvents (setTextureUVScale s 1 1) ++
  sinkEvents (setShaderMaterial s junk "liquid") ++
  [Event.draw MeshKind.cylinder] ++
  sinkEvents (setTransformations s (0.8, 0.5, 0.7) 0 0 0 (0, 3, -7)) ++
  sinkEvents (setShaderColor s 0.827 0.824 0.902 0.8) ++
  sinkEvents (setShaderMaterial s junk "glass") ++
  [Event.draw MeshKind.taperedCylinder] ++
  sinkEvents (setTransformations s (0.4, 1.2, 0.4) 0 0 0 (0, 3, -7)) ++
  sinkEvents (setShaderColor s 0.827 0.824 0.902 0.8) ++
  sinkEvents (setShaderMaterial s junk "glass") ++
  [Event.draw MeshKind.cylinder] ++
  sinkEvents (setTransformations s (0.4, 0.5, 0.5) 90 0 0 (0, 4.2, -7)) ++
  sinkEvents (setShaderColor s 0.827 0.824 0.902 0.8) ++
  sinkEvents (setShaderMaterial s junk "glass") ++
  [Event.draw MeshKind.torus] ++
  sinkEvents (setTransformations s (0.4, 0.5, 0.2) 90 0 0 (0, 4, -7)) ++
  sinkEvents (setShaderTexture s "black-twine") ++
  sinkEvents (setTextureUVScale s 1 1) ++
  sinkEvents (setShaderMaterial s junk "twine") ++
  [Event.draw MeshKind.torus] ++
  sinkEvents (setTransformations s (0.4, 0.5, 0.2) (-92) 0 0 (0, 3.9, -7)) ++
  sinkEvents (setShaderTexture s "black-twine") ++
  sinkEvents (setTextureUVScale s 1 1) ++
  sinkEvents (setShaderMaterial s junk "twine") ++
  [Event.draw MeshKind.torus] ++
  sinkEvents (setTransformations s (0.4, 0.5, 0.2) 89 0 0 (0, 3.8, -7)) ++
  sinkEvents (setShaderTexture s "black-twine") ++
  sinkEvents (setTextureUVScale s 1 1) ++
  sinkEvents (setShaderMaterial s junk "twine") ++
  [Event.draw MeshKind.torus] ++
  sinkEvents (setTransformations s (0.4, 0.5, 0.2) (-95) 0 0 (0, 3.7, -7)) ++
  sinkEvents (setShaderTexture s "black-twine") ++
  sinkEvents (setTextureUVScale s 1 1) ++
  sinkEvents (setShaderMaterial s junk "twine") ++
  [Event.draw MeshKind.torus] ++
  sinkEvents (setTransformations s (0.4, 0.5, 0.2) 90 0 0 (0, 3.6, -7)) ++
  sinkEvents (setShaderTexture s "black-twine") ++
  sinkEvents (setTextureUVScale s 1 1) ++
  sinkEvents (setShaderMaterial s junk "twine") ++
  [Event.draw MeshKind.torus] ++
  sinkEvents (setTransformations s (0.3, 0.4, 0.4) 0 0 0 (0, 4, -7)) ++
  sinkEvents (setShaderTexture s "bottle-cork") ++
  sinkEvents (setTextureUVScale s 1 1) ++
  sinkEvents (setShaderMaterial s junk "twine") ++
  [Event.draw MeshKind.cylinder]

/-- `SceneManager::RenderAmortentia`. -/
def renderAmortentia [Field α] [Trig α] (s : SceneState α)
    (junk : OBJECT_MATERIAL α) : List (Event α) :=
  sinkEvents (setTransformations s (0.8, 1.8, 1) 0 (-5) 0 (1.6, 0, -6.5)) ++
  sinkEvents (setShaderTexture s "love-potion") ++
  sinkEvents (setTextureUVScale s 1 1) ++
  sinkEvents (setShaderMaterial s junk "loveGlow") ++
  [Event.draw MeshKind.cylinder] ++
  sinkEvents (setTransformations s (0.8, 0.5, 1) 0 0 0 (1.6, 1.8, -6.5)) ++
  sinkEvents (setShaderColor s 0.827 0.824 0.902 0.8) ++
  sinkEvents (setShaderMaterial s junk "glass") ++
  [Event.draw MeshKind.taperedCylinder] ++
  sinkEvents (setTransformations s (0.4, 0.8, 0.5) 0 0 0 (1.6, 2, -6.5)) ++
  sinkEvents (setShaderColor s 0.827 0.824 0.902 0.8) ++
  sinkEvents (setShaderMaterial s junk "glass") ++
  [Event.draw MeshKind.cylinder] ++
  sinkEvents (setTransformations s (0.4, 0.5, 0.5) 90 0 0 (1.6, 2.8, -6.5)) ++
  sinkEvents (setShaderColor s 0.827 0.824 0.902 0.8) ++
  sinkEvents (setShaderMaterial s junk "glass") ++
  [Event.draw MeshKind.torus] ++
  sinkEvents (setTransformations s (0.3, 0.2, 0.4) 0 0 0 (1.6, 2.8, -6.5)) ++
  sinkEvents (setShaderTexture s "bottle-cork") ++
  sinkEvents (setShaderMaterial s junk "twine") ++
  [Event.draw MeshKind.cylinder] ++
  sinkEvents (setTransformations s (0.4, 0.5, 0.3) 90 0 0 (1.6, 2.4, -6.5)) ++
  sinkEvents (setShaderTexture s "brown-twine") ++
  sinkEvents (setTextureUVScale s 1 1) ++
  sinkEvents (setShaderMaterial s junk "twine") ++
  [Event.draw MeshKind.torus] ++
  sinkEvents (setTransformations s (0.4, 0.5, 0.3) 93 0 0 (1.6, 2.3, -6.5)) ++
  sinkEvents (setShaderTexture s "brown-twine") ++
  sinkEvents (setTextureUVScale s 1 1) ++
  sinkEvents (setShaderMaterial s junk "twine") ++
  [Event.draw MeshKind.torus] ++
  sinkEvents (setTransformations s (0.4, 0.5, 0.3) (-94) 0 0 (1.6, 2.5, -6.5)) ++
  sinkEvents (setShaderTexture s "brown-twine") ++
  sinkEvents (setTextureUVScale s 1 1) ++
  sinkEvents (setShaderMaterial s junk "twine") ++
  [Event.draw MeshKind.torus] ++
  sinkEvents (setTransformations s (0.4, 0.5, 0.3) (-91) 0 0 (1.6, 2.6, -6.5)) ++
  sinkEvents (setShaderTexture s "brown-twine") ++
  sinkEvents (setTextureUVScale s 1 1) ++
  sinkEvents (setShaderMaterial s junk "twine") ++
  [Event.draw MeshKind.torus]

/-- `SceneManager::RenderThunderbrew`. -/
def renderThunderbrew [Field α] [Trig α] (s : SceneState α)
    (junk : OBJECT_MATERIAL α) : List (Event α) :=
  sinkEvents (setTransformations s (0.8, 2.5, 0.7) 0 0 0 (3.2, 0, -6)) ++
  sinkEvents (setShaderTexture s "stun-potion") ++
  sinkEvents (setTextureUVScale s 1 1) ++
  sinkEvents (setShaderMaterial s junk "liquid") ++
  [Event.draw MeshKind.cylinder] ++
  sinkEvents (setTransformations s (0.8, 0.5, 0.7) 0 0 0 (3.2, 2.5, -6)) ++
  sinkEvents (setShaderColor s 0.827 0.824 0.902 0.8) ++
  sinkEvents (setShaderMaterial s junk "glass") ++
  [Event.draw MeshKind.taperedCylinder] ++
  sinkEvents (setTransformations s (0.4, 1, 0.4) 0 0 0 (3.2, 2.5, -6)) ++
  sinkEvents (setShaderColor s 0.827 0.824 0.902 0.8) ++
  sinkEvents (setShaderMaterial s junk "glass") ++
  [Event.draw MeshKind.cylinder] ++
  sinkEvents (setTransformations s (0.4, 0.5, 0.5) 90 0 0 (3.2, 3.5, -6)) ++
  sinkEvents (setShaderColor s 0.827 0.824 0.902 0.8) ++
  sinkEvents (setShaderMaterial s junk "glass") ++
  [Event.draw MeshKind.torus] ++
  sinkEvents (setTransformations s (0.4, 0.5, 0.2) 90 0 0 (3.2, 3, -6)) ++
  sinkEvents (setShaderTexture s "brown-twine") ++
  sinkEvents (setTextureUVScale s 1 1) ++
  sinkEvents (setShaderMaterial s junk "twine") ++
  [Event.draw MeshKind.torus] ++
  sinkEvents (setTransformations s (0.4, 0.5, 0.2) (-92) 0 0 (3.2, 3.3, -6)) ++
  sinkEvents (setShaderTexture s "brown-twine") ++
  sinkEvents (setTextureUVScale s 1 1) ++
  sinkEvents (setShaderMaterial s junk "twine") ++
  [Event.draw MeshKind.torus] ++
  sinkEvents (setTransformations s (0.4, 0.5, 0.2) 89 0 0 (3.2, 3.1, -6)) ++
  sinkEvents (setShaderTexture s "brown-twine") ++
  sinkEvents (setTextureUVScale s 1 1) ++
  sinkEvents (setShaderMaterial s junk "twine") ++
  [Event.draw MeshKind.torus] ++
  sinkEvents (setTransformations s (0.4, 0.5, 0.2) (-95) 0 0 (3.2, 3.2, -6)) ++
  sinkEvents (setShaderTexture s "brown-twine") ++
  sinkEvents (setTextureUVScale s 1 1) ++
  sinkEvents (setShaderMaterial s junk "twine") ++
  [Event.draw MeshKind.torus] ++
  sinkEvents (setTransformations s (0.3, 0.4, 0.4) 0 0 0 (3.2, 3.3, -6)) ++
  sinkEvents (setShaderTexture s "bottle-cork") ++
  sinkEvents (setShaderMaterial s junk "twine") ++
  [Event.draw MeshKind.cylinder]

/-- `SceneManager::RenderFelix`. -/
def renderFelix [Field α] [Trig α] (s : SceneState α)
    (junk : OBJECT_MATERIAL α) : List (Event α) :=
  sinkEvents (setTransformations s (1.3, 1.4, 1.3) 0 0 0 (-2.7, 1, -6)) ++
  sinkEvents (setShaderTexture s "lucky-potion") ++
  sinkEvents (setTextureUVScale s 1 1) ++
  sinkEvents (setShaderMaterial s junk "felixGlow") ++
  [Event.draw MeshKind.sphere] ++
  sinkEvents (setTransformations s (0.8, 1.3, 0.8) 0 0 0 (-2.7, 1.5, -6)) ++
  sinkEvents (setShaderTexture s "lucky-potion") ++
  sinkEvents (setTextureUVScale s 1 1) ++
  sinkEvents (setShaderMaterial s junk "felixGlow") ++
  [Event.draw MeshKind.taperedCylinder] ++
  sinkEvents (setTransformations s (0.4, 1, 0.4) 0 0 0 (-2.7, 2.6, -6)) ++
  sinkEvents (setShaderColor s 0.827 0.824 0.902 0.8) ++
  sinkEvents (setShaderMaterial s junk "glass") ++
  [Event.draw MeshKind.cylinder] ++
  sinkEvents (setTransformations s (0.5, 0.4, 0.5) 90 0 0 (-2.7, 3.6, -6)) ++
  sinkEvents (setShaderColor s 0.827 0.824 0.902 0.8) ++
  sinkEvents (setShaderMaterial s junk "glass") ++
  [Event.draw MeshKind.torus] ++
  sinkEvents (setTransformations s (0.3, 0.4, 0.4) 0 0 0 (-2.7, 3.5, -6)) ++
  sinkEvents (setShaderTexture s "bottle-cork") ++
  sinkEvents (setShaderMaterial s junk "twine") ++
  [Event.draw MeshKind.cylinder] ++
  sinkEvents (setTransformations s (0.5, 0.5, 1) 0 0 0 (-3.2, 3, -6)) ++
  sinkEvents (setShaderColor s 0.827 0.824 0.902 0.8) ++
  sinkEvents (setShaderMaterial s junk "glass") ++
  [Event.draw MeshKind.torus] ++
  sinkEvents (setTransformations s (0.4, 0.4, 0.2) 90 0 0 (-2.7, 3.3, -6)) ++
  sinkEvents (setShaderTexture s "brown-twine") ++
  sinkEvents (setTextureUVScale s 1 1) ++
  sinkEvents (setShaderMaterial s junk "twine") ++
  [Event.draw MeshKind.torus] ++
  sinkEvents (setTransformations s (0.4, 0.4, 0.2) 90 0 0 (-2.7, 3.4, -6)) ++
  sinkEvents (setShaderTexture s "brown-twine") ++
  sinkEvents (setTextureUVScale s 1 1) ++
  sinkEvents (setShaderMaterial s junk "twine") ++
  [Event.draw MeshKind.torus] ++
  sinkEvents (setTransformations s (0.4, 0.4, 0.2) 90 0 0 (-2.7, 3.45, -6)) ++
  sinkEvents (setShaderTexture s "brown-twine") ++
  sinkEvents (setTextureUVScale s 1 1) ++
  sinkEvents (setShaderMaterial s junk "twine") ++
  [Event.draw MeshKind.torus] ++
  sinkEvents (setTransformations s (0.4, 0.4, 0.2) 90 0 0 (-2.7, 3.5, -6)) ++
  sinkEvents (setShaderTexture s "brown-twine") ++
  sinkEvents (setTextureUVScale s 1 1) ++
  sinkEvents (setShaderMaterial s junk "twine") ++
  [Event.draw MeshKind.torus]

/-- `SceneManager::RenderFlooPowder`. -/
def renderFlooPowder [Field α] [Trig α] (s : SceneState α)
    (junk : OBJECT_MATERIAL α) : List (Event α) :=
  sinkEvents (setTransformations s (1.2, 1.8, 1.2) 0 0 0 (-1.5, 0, -3.8)) ++
  sinkEvents (setShaderColor s 0.827 0.824 0.902 0.8) ++
  sinkEvents (setShaderMaterial s junk "glass") ++
  [Event.draw MeshKind.cylinder] ++
  sinkEvents (setTransformations s (1.2, 0.5, 1.2) 0 0 0 (-1.5, 1.8, -3.8)) ++
  sinkEvents (setShaderColor s 0.827 0.824 0.902 0.8) ++
  sinkEvents (setShaderMaterial s junk "glass") ++
  [Event.draw MeshKind.halfSphere] ++
  sinkEvents (setTransformations s (1.1, 1.1, 0.3) 90 0 0 (-1.5, 1.8, -3.8)) ++
  sinkEvents (setShaderColor s 0.827 0.824 0.902 0.8) ++
  sinkEvents (setShaderMaterial s junk "glass") ++
  [Event.draw MeshKind.torus] ++
  sinkEvents (setTransformations s (0.4, 0.6, 0.4) 0 0 0 (-1.5, 2, -3.8)) ++
  sinkEvents (setShaderColor s 0.827 0.824 0.902 0.8) ++
  sinkEvents (setShaderMaterial s junk "glass") ++
  [Event.draw MeshKind.cylinder]

/-- `SceneManager::RenderScene`: the concatenation of the seven per-object
render traces.  The returned state is the state after the pass; the source
render path writes no member, which the embedding makes explicit by
returning the input state. -/
def renderScene [Field α] [Trig α] (s : SceneState α)
    (junk : OBJECT_MATERIAL α) : SceneState α × List (Event α) :=
  (s,
   renderBackground s junk ++ renderTable s junk ++
   renderDraughtLivingDeath s junk ++ renderAmortentia s junk ++
   renderThunderbrew s junk ++ renderFelix s junk ++ renderFlooPowder s junk)

/-! ### The texture-registry invariant and concrete fixtures -/

/-- The spec's texture-registry invariant: occupied-count at most the
capacity 16 of `m_textureIDs`, and tags unique among occupied slots. -/
def texInvariant (s : SceneState α) : Prop :=
  s.loadedTextures ≤ 16 ∧
  ∀ i j, i < s.loadedTextures → j < s.loadedTextures →
    (s.textureIDs i).tag = (s.textureIDs j).tag → i = j

/-- Dummy trigonometry on ℚ, used only to evaluate the embedding on concrete
inputs; the theorems hold for every `Trig` instance. -/
instance : Trig ℚ where
  cos := fun _ => 0
  sin := fun _ => 0
  pi := 0

/-- A decoder on which every image load fails. -/
def decodeNone : String → Option StbImage := fun _ => none

/-- A decoder that reports every file as a 1×1 3-channel (RGB) image. -/
def decodeRGB : String → Option StbImage := fun _ => some ⟨1, 1, 3⟩

/-- A decoder that reports every file as a 1×1 1-channel (grayscale) image. -/
def decodeGray : String → Option StbImage := fun _ => some ⟨1, 1, 1⟩

/-- The `"wood"` material exactly as `DefineObjectMaterials` defines it. -/
def woodQ : OBJECT_MATERIAL ℚ := ⟨(0.2, 0.2, 0.3), (0, 0, 0), 0.1, "wood"⟩

/-- A later duplicate `"wood"` material with different values. -/
def woodDupQ : OBJECT_MATERIAL ℚ := ⟨(9, 9, 9), (9, 9, 9), 9, "wood"⟩

/-- A recognizable stand-in for the indeterminate contents of the
uninitialized local `OBJECT_MATERIAL material;` in `SetShaderMaterial`. -/
def junkQ : OBJECT_MATERIAL ℚ := ⟨(7, 8, 9), (4, 5, 6), 42, ""⟩

/-- A state whose material list holds only the `"wood"` entry. -/
def stateWood : SceneState ℚ :=
  { hasShader := true
    textureIDs := fun _ => ⟨"/0", -1⟩
    loadedTextures := 0
    objectMaterials := [woodQ]
    nextTexId := 1 }

/-- `stateWood` with a null shader-manager pointer. -/
def stateWoodNoShader : SceneState ℚ :=
  { stateWood with hasShader := false }

/-- A state with one registered texture, tag `"a"`. -/
def stateOneTex : SceneState ℚ :=
  { hasShader := true
    textureIDs := fun i => if i = 0 then ⟨"a", 5⟩ else ⟨"/0", -1⟩
    loadedTextures := 1
    objectMaterials := []
    nextTexId := 6 }

/-- A state with two registered textures, tags `"alpha"` and `"beta"`. -/
def stateTwoTex : SceneState ℚ :=
  { hasShader := true
    textureIDs := fun i =>
      if i = 0 then ⟨"alpha", 10⟩ else if i = 1 then ⟨"beta", 11⟩ else ⟨"/0", -1⟩
    loadedTextures := 2
    objectMaterials := []
    nextTexId := 12 }

/-! ## Helper lemmas -/

@[simp] theorem updateSlot_same (f : Nat → TexEntry) (i : Nat) (e : TexEntry) :
    updateSlot f i e i = e := by
  simp [updateSlot]

theorem updateSlot_other (f : Nat → TexEntry) (i j : Nat) (e : TexEntry)
    (h : j ≠ i) : updateSlot f i e j = f j := by
  simp [updateSlot, h]

theorem scanSlot_none (f : Nat → TexEntry) (tag : String) (idx r : Nat)
    (h : ∀ j, idx ≤ j → j < idx + r → (f j).tag ≠ tag) :
    scanSlot f tag idx r = none := by
  induction r generalizing idx with
  | zero => rfl
  | succ r ih =>
    rw [scanSlot, if_neg (h idx (Nat.le_refl idx) (by omega))]
    exact ih (idx + 1) (fun j h1 h2 => h j (by omega) (by omega))

theorem scanSlot_found (f : Nat → TexEntry) (tag : String) (idx r i : Nat)
    (hge : idx ≤ i) (hlt : i < idx + r) (htag : (f i).tag = tag)
    (hmiss : ∀ j, idx ≤ j → j < i → (f j).tag ≠ tag) :
    scanSlot f tag idx r = some i := by
  induction r generalizing idx with
  | zero => omega
  | succ r ih =>
    rw [scanSlot]
    by_cases hc : (f idx).tag = tag
    · rcases Nat.lt_or_ge idx i with hlt' | hge'
      · exact absurd hc (hmiss idx (Nat.le_refl idx) hlt')
      · rw [if_pos hc]
        exact congrArg some (Nat.le_antisymm hge hge')
    · rw [if_neg hc]
      have hne : idx ≠ i := fun h => hc (h ▸ htag)
      exact ih (idx + 1) (by omega) (by omega)
        (fun j h1 h2 => hmiss j (by omega) h2)

theorem bindAux_get (f : Nat → TexEntry) (idx r i : Nat) (h : i < r) :
    (bindAux f idx r).get? (2 * i) =
      some (GLEvent.activeTexture (GL_TEXTURE0 + (idx + i))) ∧
    (bindAux f idx r).get? (2 * i + 1) =
      some (GLEvent.bindTexture2D (f (idx + i)).id) := by
  induction r generalizing idx i with
  | zero => omega
  | succ r ih =>
    match i with
    | 0 => exact ⟨rfl, rfl⟩
    | i + 1 =>
      have h2 : 2 * (i + 1) = (2 * i + 1) + 1 := by omega
      rw [bindAux, h2]
      simp only [List.get?_cons_succ]
      have := ih (idx + 1) i (by omega)
      rwa [show idx + 1 + i = idx + (i + 1) by omega] at this

theorem findMatAux_first (l1 l2 : List (OBJECT_MATERIAL α))
    (e junk : OBJECT_MATERIAL α) (tag : String)
    (hmiss : ∀ m ∈ l1, m.tag ≠ tag) (he : e.tag = tag) :
    findMatAux (l1 ++ e :: l2) tag junk =
      { junk with
        diffuseColor := e.diffuseColor,
        specularColor := e.specularColor,
        shininess := e.shininess } := by
  induction l1 with
  | nil => simp [findMatAux, he]
  | cons m l1 ih =>
    rw [List.cons_append, findMatAux, if_neg (hmiss m (List.mem_cons_self _ _))]
    exact ih (fun m hm => hmiss m (List.mem_cons_of_mem _ hm))

theorem createGLTexture_mats (d : String → Option StbImage) (s : SceneState α)
    (f t : String) :
    ((createGLTexture d s f t).1).objectMaterials = s.objectMaterials := by
  unfold createGLTexture
  cases hd : d f
  · rfl
  · dsimp only
    split_ifs <;> rfl

theorem loadSceneTextures_mats [Field α] (d : String → Option StbImage)
    (s : SceneState α) :
    ((loadSceneTextures d s).1).objectMaterials = s.objectMaterials := by
  simp only [loadSceneTextures, createGLTexture_mats]

theorem prepareScene_mats [Field α] (d : String → Option StbImage)
    (s : SceneState α) :
    ((prepareScene d s).1).objectMaterials = s.objectMaterials ++
      [⟨(0.2, 0.2, 0.3), (0, 0, 0), 0.1, "wood"⟩,
       ⟨(0.478, 0.478, 0.478), (1, 1, 1), 98, "glass"⟩,
       ⟨(0.8, 0.8, 0.9), (0, 0, 0), 2, "wall"⟩,
       ⟨(0.1, 0.1, 0.1), (0.1, 0.1, 0.1), 0.2, "twine"⟩,
       ⟨(0.329, 0.212, 0.4), (0.1, 0.05, 0.1), 0.5, "liquid"⟩,
       ⟨(0.929, 0.961, 0.424), (0.1, 0.1, 0.1), 0.7, "felixGlow"⟩,
       ⟨(0.922, 0.435, 0.773), (0.1, 0.1, 0.1), 0.7, "loveGlow"⟩] := by
  simp only [prepareScene, defineObjectMaterials, loadSceneTextures_mats]

theorem destroyAux_state (r : Nat) (s : SceneState α) (idx : Nat) :
    ((destroyAux s idx r).1).loadedTextures = s.loadedTextures ∧
    ∀ i, (((destroyAux s idx r).1).textureIDs i).tag = (s.textureIDs i).tag := by
  induction r generalizing s idx with
  | zero => exact ⟨rfl, fun _ => rfl⟩
  | succ r ih =>
    rw [destroyAux]
    dsimp only
    refine ⟨(ih _ _).1, fun i => ((ih _ _).2 i).trans ?_⟩
    by_cases hc : i = idx
    · subst hc; simp [updateSlot]
    · simp [updateSlot, hc]

theorem destroyAux_events (r : Nat) (s : SceneState α) (idx : Nat) :
    ((destroyAux s idx r).2).length = r ∧
    ∀ e ∈ (destroyAux s idx r).2, ∃ id, e = GLEvent.genTextures id := by
  induction r generalizing s idx with
  | zero => exact ⟨rfl, by intro e he; simp [destroyAux] at he⟩
  | succ r ih =>
    rw [destroyAux]
    dsimp only
    refine ⟨by simp [(ih _ _).1], ?_⟩
    intro e he
    rcases List.mem_cons.mp he with rfl | he'
    · exact ⟨_, rfl⟩
    · exact (ih _ _).2 e he'

theorem glmRotate_unitX [Field α] [Trig α] (angle : α) :
    glmRotate angle (1, 0, 0) = rotationXMat angle := by
  unfold glmRotate rotationXMat
  ext i j
  fin_cases i <;> fin_cases j <;> simp

theorem glmRotate_unitY [Field α] [Trig α] (angle : α) :
    glmRotate angle (0, 1, 0) = rotationYMat angle := by
  unfold glmRotate rotationYMat
  ext i j
  fin_cases i <;> fin_cases j <;> simp

theorem glmRotate_unitZ [Field α] [Trig α] (angle : α) :
    glmRotate angle (0, 0, 1) = rotationZMat angle := by
  unfold glmRotate rotationZMat
  ext i j
  fin_cases i <;> fin_cases j <;> simp

theorem updateSlot_uniq (s : SceneState α) (t : String) (idv : Int)
    (hinv : texInvariant s)
    (hfresh : ∀ i, i < s.loadedTextures → (s.textureIDs i).tag ≠ t) :
    ∀ i j, i < s.loadedTextures + 1 → j < s.loadedTextures + 1 →
      ((updateSlot s.textureIDs s.loadedTextures ⟨t, idv⟩) i).tag =
        ((updateSlot s.textureIDs s.loadedTextures ⟨t, idv⟩) j).tag → i = j := by
  intro i j hi hj htag
  rcases Nat.lt_succ_iff_lt_or_eq.mp hi with hi' | rfl
  · rcases Nat.lt_succ_iff_lt_or_eq.mp hj with hj' | rfl
    · rw [updateSlot_other _ _ _ _ (by omega), updateSlot_other _ _ _ _ (by omega)] at htag
      exact hinv.2 i j hi' hj' htag
    · rw [updateSlot_other _ _ _ _ (by omega), updateSlot_same] at htag
      exact absurd htag (hfresh i hi')
  · rcases Nat.lt_succ_iff_lt_or_eq.mp hj with hj' | rfl
    · rw [updateSlot_same, updateSlot_other _ _ _ _ (by omega)] at htag
      exact absurd htag.symm (hfresh j hj')
    · rfl

/-! ## The claims -/

/-- C1: the claim says `SetShaderMaterial` pushes the material uniforms only
if an entry with the tag exists, and silently no-ops when the list is
non-empty but the tag is absent.  Evaluating the embedding on a registry
holding only `"wood"` and the missing tag `"missing"` shows the code instead
reports the lookup as successful (`FindMaterial` ignores its `bFound` flag
and returns `true` for any non-empty list) and pushes three uniforms carrying
the uninitialized local's values - the sink IS called on a miss. -/
theorem c1_missingTag_still_pushes :
    findMaterial stateWood.objectMaterials "missing" junkQ = (true, junkQ) ∧
    setShaderMaterial stateWood junkQ "missing" =
      [SinkMsg.vec3Value "material.diffuseColor" (7, 8, 9),
       SinkMsg.vec3Value "material.specularColor" (4, 5, 6),
       SinkMsg.floatValue "material.shininess" 42] :=
  ⟨rfl, rfl⟩

/-- C2: the claim says teardown deletes every registered GPU texture handle
exactly once and performs no other GPU-resource operation.  The code instead
emits one `glGenTextures` (an allocation) per occupied slot and never emits
`glDeleteTextures`: every event in the `DestroyGLTextures` trace is a
`genTextures`, and no `deleteTextures` occurs. -/
theorem c2_destroy_never_deletes (s : SceneState α) :
    ((destroyGLTextures s).2).length = s.loadedTextures ∧
    (∀ e ∈ (destroyGLTextures s).2, ∃ id, e = GLEvent.genTextures id) ∧
    ∀ id, GLEvent.deleteTextures id ∉ (destroyGLTextures s).2 := by
  refine ⟨(destroyAux_events _ _ _).1, (destroyAux_events _ _ _).2, ?_⟩
  intro id hmem
  rcases (destroyAux_events _ _ _).2 _ hmem with ⟨id', h⟩
  exact GLEvent.noConfusion h

/-- C2 witness: at a one-texture registry the teardown trace has one event
and contains no `glDeleteTextures` call. -/
theorem c2_destroy_never_deletes_witness :
    ((destroyGLTextures stateOneTex).2).length = 1 ∧
    GLEvent.deleteTextures 5 ∉ (destroyGLTextures stateOneTex).2 :=
  ⟨(c2_destroy_never_deletes stateOneTex).1,
   (c2_destroy_never_deletes stateOneTex).2.2 5⟩

/-- C3 counterexample: `PrepareScene` is not idempotent - run twice from the
initial state (with every texture load failing, so only the material list
moves) the resulting state differs from the single-run state, because the
second run appends the seven materials again. -/
theorem c3_not_idempotent_counterexample :
    (prepareScene decodeNone ((prepareScene decodeNone (initialState ℚ true)).1)).1 ≠
      (prepareScene decodeNone (initialState ℚ true)).1 := by
  intro h
  have h1 : ((prepareScene decodeNone (initialState ℚ true)).1).objectMaterials.length
      = 7 := by
    rw [prepareScene_mats]; rfl
  have h2 : ((prepareScene decodeNone
      ((prepareScene decodeNone (initialState ℚ true)).1)).1).objectMaterials.length
      = 14 := by
    rw [prepareScene_mats, List.length_append, h1]
    rfl
  have hlen := congrArg (fun st => st.objectMaterials.length) h
  dsimp only at hlen
  omega

/-- C3 (amended): `PrepareScene` is NOT idempotent: each run unconditionally
appends the seven material definitions (and re-runs the nine texture loads),
so for every decoder whose two runs stay within the 16-slot capacity of
`m_textureIDs` - the registry write index is the monotone occupied-count, so
this bound is exactly the condition under which the source performs no
out-of-bounds slot write and the embedding is faithful - the material list
holds 7 entries after one run from the initial state and 14 after two. -/
theorem c3_prepare_appends_materials [Field α] (decode : String → Option StbImage)
    (_hbound : ((prepareScene decode
      ((prepareScene decode (initialState α true)).1)).1).loadedTextures ≤ 16) :
    ((prepareScene decode (initialState α true)).1).objectMaterials.length = 7 ∧
    ((prepareScene decode
      ((prepareScene decode (initialState α true)).1)).1).objectMaterials.length = 14 := by
  have h1 : ((prepareScene decode (initialState α true)).1).objectMaterials.length
      = 7 := by
    rw [prepareScene_mats]; rfl
  exact ⟨h1, by rw [prepareScene_mats, List.length_append, h1]; rfl⟩

/-- C3 witness: with every texture load failing the registry never grows, so
both runs stay within capacity, and the material counts are 7 then 14. -/
theorem c3_prepare_appends_materials_witness :
    ((prepareScene decodeNone (initialState ℚ true)).1).objectMaterials.length = 7 ∧
    ((prepareScene decodeNone
      ((prepareScene decodeNone
        (initialState ℚ true)).1)).1).objectMaterials.length = 14 :=
  c3_prepare_appends_materials decodeNone (by decide)

/-- C4 counterexample: the registry invariant is NOT preserved by every
successful `CreateGLTexture`.  From a valid one-texture state tagged `"a"`, a
successful load of another texture with the same tag `"a"` yields a state
with two occupied slots sharing a tag - uniqueness is violated (the source
has no duplicate-tag check). -/
theorem c4_invariant_not_preserved :
    texInvariant stateOneTex ∧
    (createGLTexture decodeRGB stateOneTex "textures/dup.jpg" "a").2.1 = true ∧
    ¬ texInvariant (createGLTexture decodeRGB stateOneTex "textures/dup.jpg" "a").1 := by
  refine ⟨⟨by decide, ?_⟩, rfl, ?_⟩
  · intro i j hi hj _
    have hi' : i < 1 := hi
    have hj' : j < 1 := hj
    omega
  · rintro ⟨-, huniq⟩
    have hL : (createGLTexture decodeRGB stateOneTex
        "textures/dup.jpg" "a").1.loadedTextures = 2 := rfl
    have htag : ((createGLTexture decodeRGB stateOneTex
          "textures/dup.jpg" "a").1.textureIDs 0).tag =
        ((createGLTexture decodeRGB stateOneTex
          "textures/dup.jpg" "a").1.textureIDs 1).tag := rfl
    have h01 := huniq 0 1 (by rw [hL]; omega) (by rw [hL]; omega) htag
    omega

/-- C4 (amended): the registry invariant (count ≤ 16, tags unique among
occupied slots) is preserved by `CreateGLTexture` PROVIDED the registry is
not full and the new tag is not already registered - the source checks
neither, and the counterexample shows the unconditional claim fails; it is
also preserved by `DestroyGLTextures`, which rewrites IDs but no tag or
count. -/
theorem c4_invariant_preserved (d : String → Option StbImage) (s : SceneState α)
    (f t : String) (hinv : texInvariant s) (hroom : s.loadedTextures < 16)
    (hfresh : ∀ i, i < s.loadedTextures → (s.textureIDs i).tag ≠ t) :
    texInvariant (createGLTexture d s f t).1 ∧
    texInvariant (destroyGLTextures s).1 := by
  constructor
  · unfold createGLTexture
    cases hd : d f
    · exact hinv
    · dsimp only
      split_ifs
      · exact ⟨(by omega : s.loadedTextures + 1 ≤ 16), updateSlot_uniq s t _ hinv hfresh⟩
      · exact ⟨(by omega : s.loadedTextures + 1 ≤ 16), updateSlot_uniq s t _ hinv hfresh⟩
      · exact hinv
  · unfold destroyGLTextures
    obtain ⟨hc, ht⟩ := destroyAux_state s.loadedTextures s 0
    refine ⟨by rw [hc]; exact hinv.1, ?_⟩
    intro i j hi hj htag
    rw [hc] at hi hj
    rw [ht i, ht j] at htag
    exact hinv.2 i j hi hj htag

/-- C4 witness: from the freshly constructed (empty) registry, one
successful RGB load and a teardown both leave the invariant intact. -/
theorem c4_invariant_preserved_witness :
    texInvariant (createGLTexture decodeRGB (initialState ℚ true)
      "textures/cork.jpg" "bottle-cork").1 ∧
    texInvariant (destroyGLTextures (initialState ℚ true)).1 :=
  c4_invariant_preserved decodeRGB (initialState ℚ true)
    "textures/cork.jpg" "bottle-cork"
    ⟨by decide, fun i j hi _ _ => absurd hi (Nat.not_lt_zero i)⟩
    (by decide)
    (fun i hi => absurd hi (Nat.not_lt_zero i))

/-- C5: a failed `CreateGLTexture` - undecodable image, or a channel count
other than 3 and 4 - returns `false` and leaves the texture registry (the
slot array and `m_loadedTextures`) exactly as it was. -/
theorem c5_fail_leaves_registry (d : String → Option StbImage) (s : SceneState α)
    (f t : String)
    (h : d f = none ∨ ∃ img, d f = some img ∧ img.channels ≠ 3 ∧ img.channels ≠ 4) :
    (createGLTexture d s f t).2.1 = false ∧
    ((createGLTexture d s f t).1).textureIDs = s.textureIDs ∧
    ((createGLTexture d s f t).1).loadedTextures = s.loadedTextures := by
  unfold createGLTexture
  rcases h with hn | ⟨img, hs, h3, h4⟩
  · rw [hn]
    exact ⟨rfl, rfl, rfl⟩
  · rw [hs]
    dsimp only
    rw [if_neg h3, if_neg h4]
    exact ⟨rfl, rfl, rfl⟩

/-- C5 witness: a grayscale (1-channel) image - the spec's own example -
fails and the registry size stays 0. -/
theorem c5_fail_leaves_registry_witness :
    (createGLTexture decodeGray (initialState ℚ true) "textures/gray.jpg" "gray").2.1
      = false ∧
    ((createGLTexture decodeGray (initialState ℚ true)
      "textures/gray.jpg" "gray").1).textureIDs = (initialState ℚ true).textureIDs ∧
    ((createGLTexture decodeGray (initialState ℚ true)
      "textures/gray.jpg" "gray").1).loadedTextures
      = (initialState ℚ true).loadedTextures :=
  c5_fail_leaves_registry decodeGray (initialState ℚ true) "textures/gray.jpg" "gray"
    (Or.inr ⟨⟨1, 1, 1⟩, rfl, by decide, by decide⟩)

/-- C6: with a non-null shader pointer, `SetTransformations` sends the model
matrix `T · Rz · Ry · Rx · S` - translation last, rotations in fixed
Z-then-Y-then-X order, scale first, with the per-axis glm rotations equal to
the standard rotation matrices at the degree inputs converted to radians. -/
theorem c6_model_matrix [Field α] [Trig α] (s : SceneState α)
    (h : s.hasShader = true) (scaleXYZ positionXYZ : α × α × α) (x y z : α) :
    setTransformations s scaleXYZ x y z positionXYZ =
      [SinkMsg.mat4Value "model"
        (glmTranslate positionXYZ * rotationZMat (radians z) *
          rotationYMat (radians y) * rotationXMat (radians x) *
          glmScale scaleXYZ)] := by
  simp only [setTransformations, glmRotate_unitX, glmRotate_unitY, glmRotate_unitZ,
    h, if_true]

/-- C6 witness: the composition law applied at scale (2,1,1), zero rotations
and translation (0,5,0). -/
theorem c6_model_matrix_witness :
    setTransformations (initialState ℚ true) (2, 1, 1) 0 0 0 (0, 5, 0) =
      [SinkMsg.mat4Value "model"
        (glmTranslate (0, 5, 0) * rotationZMat (radians 0) * rotationYMat (radians 0) *
          rotationXMat (radians 0) * glmScale (2, 1, 1))] :=
  c6_model_matrix (initialState ℚ true) rfl (2, 1, 1) (0, 5, 0) 0 0 0

/-- C7: material lookup is first-match-wins: whenever the first entry
carrying the looked-up tag is `e` (anything before it misses, duplicates
after it allowed), `FindMaterial` returns `e`'s diffuse/specular/shininess
values, not those of any later duplicate. -/
theorem c7_first_match (l1 l2 : List (OBJECT_MATERIAL α))
    (e junk : OBJECT_MATERIAL α) (tag : String)
    (hmiss : ∀ m ∈ l1, m.tag ≠ tag) (he : e.tag = tag) :
    findMaterial (l1 ++ e :: l2) tag junk =
      (true, { junk with
        diffuseColor := e.diffuseColor,
        specularColor := e.specularColor,
        shininess := e.shininess }) := by
  unfold findMaterial
  rw [if_neg (by simp)]
  exact congrArg (Prod.mk true) (findMatAux_first l1 l2 e junk tag hmiss he)

/-- C7 witness: the spec's `"wood"` scenario - wood defined first, a
duplicate `"wood"` with different values later; lookup returns the
first-defined values. -/
theorem c7_first_match_witness :
    findMaterial [woodQ, woodDupQ] "wood" junkQ =
      (true, { junkQ with
        diffuseColor := woodQ.diffuseColor,
        specularColor := woodQ.specularColor,
        shininess := woodQ.shininess }) :=
  c7_first_match [] [woodDupQ] woodQ junkQ "wood" (by simp) rfl

/-- C8: under tag uniqueness, `FindTextureSlot` of a registered tag returns
the slot index at which it was registered, `FindTextureID` returns that
slot's handle, and `BindGLTextures` binds that slot's texture on the texture
unit of the same index; an unregistered tag yields the sentinel −1 from both
lookups. -/
theorem c8_texture_lookup (s : SceneState α) (tag : String) :
    (∀ i, i < s.loadedTextures →
      (∀ j k, j < s.loadedTextures → k < s.loadedTextures →
        (s.textureIDs j).tag = (s.textureIDs k).tag → j = k) →
      (s.textureIDs i).tag = tag →
      findTextureSlot s tag = Int.ofNat i ∧
      findTextureID s tag = (s.textureIDs i).id ∧
      (bindGLTextures s).get? (2 * i) =
        some (GLEvent.activeTexture (GL_TEXTURE0 + i)) ∧
      (bindGLTextures s).get? (2 * i + 1) =
        some (GLEvent.bindTexture2D (s.textureIDs i).id)) ∧
    ((∀ i, i < s.loadedTextures → (s.textureIDs i).tag ≠ tag) →
      findTextureSlot s tag = -1 ∧ findTextureID s tag = -1) := by
  constructor
  · intro i hi huniq htag
    have hscan : scanSlot s.textureIDs tag 0 s.loadedTextures = some i :=
      scanSlot_found _ _ _ _ _ (Nat.zero_le i) (by omega) htag
        (fun j _ hjlt hjt =>
          absurd (huniq j i (by omega) hi (by rw [hjt, htag])) (by omega))
    refine ⟨?_, ?_, ?_, ?_⟩
    · unfold findTextureSlot
      rw [hscan]
    · unfold findTextureID
      rw [hscan]
    · unfold bindGLTextures
      simpa using (bindAux_get s.textureIDs 0 s.loadedTextures i hi).1
    · unfold bindGLTextures
      simpa using (bindAux_get s.textureIDs 0 s.loadedTextures i hi).2
  · intro hmiss
    have hscan : scanSlot s.textureIDs tag 0 s.loadedTextures = none :=
      scanSlot_none _ _ _ _ (fun j _ hj => hmiss j (by omega))
    constructor
    · unfold findTextureSlot
      rw [hscan]
    · unfold findTextureID
      rw [hscan]

/-- C8 witness: in a two-texture registry, `"beta"` (registered second)
resolves to slot 1 and handle 11, the bind trace binds it on unit
`GL_TEXTURE0 + 1`, and the unregistered `"gamma"` yields −1 twice. -/
theorem c8_texture_lookup_witness :
    (findTextureSlot stateTwoTex "beta" = 1 ∧
     findTextureID stateTwoTex "beta" = 11 ∧
     (bindGLTextures stateTwoTex).get? 2 =
       some (GLEvent.activeTexture (GL_TEXTURE0 + 1)) ∧
     (bindGLTextures stateTwoTex).get? 3 =
       some (GLEvent.bindTexture2D 11)) ∧
    (findTextureSlot stateTwoTex "gamma" = -1 ∧
     findTextureID stateTwoTex "gamma" = -1) := by
  refine ⟨?_, ?_⟩
  · exact (c8_texture_lookup stateTwoTex "beta").1 1 (by decide)
      (fun j k hj hk htag => by
        have hj' : j < 2 := hj
        have hk' : k < 2 := hk
        interval_cases j <;> interval_cases k <;>
          first
          | rfl
          | exact absurd htag (by decide))
      rfl
  · exact (c8_texture_lookup stateTwoTex "gamma").2
      (fun i hi => by
        have hi' : i < 2 := hi
        interval_cases i <;> decide)

/-- C9: the render pass is deterministic and effect-free beyond the sink:
it leaves the scene state unchanged, and replaying it from the state it
returns produces the identical event trace. -/
theorem c9_render_replay [Field α] [Trig α] (s : SceneState α)
    (junk : OBJECT_MATERIAL α) :
    (renderScene s junk).1 = s ∧
    (renderScene ((renderScene s junk).1) junk).2 = (renderScene s junk).2 :=
  ⟨rfl, rfl⟩

/-- C10: with a null shader-manager pointer, `SetTransformations`,
`SetShaderColor`, `SetShaderTexture` and `SetTextureUVScale` each perform no
sink call (each guards the pointer), while `SetShaderMaterial` has no guard:
whenever the material list is non-empty and `FindMaterial` reports success it
still issues its sink calls - i.e. dereferences the null pointer. -/
theorem c10_null_shader_guards [Field α] [Trig α] (s : SceneState α)
    (junk : OBJECT_MATERIAL α) (scaleXYZ positionXYZ : α × α × α)
    (x y z r g b a u v : α) (ttag mtag : String) (h : s.hasShader = false) :
    setTransformations s scaleXYZ x y z positionXYZ = [] ∧
    setShaderColor s r g b a = [] ∧
    setShaderTexture s ttag = [] ∧
    setTextureUVScale s u v = [] ∧
    (s.objectMaterials ≠ [] →
      (findMaterial s.objectMaterials mtag junk).1 = true →
      setShaderMaterial s junk mtag ≠ []) := by
  refine ⟨?_, ?_, ?_, ?_, ?_⟩
  · simp [setTransformations, h]
  · simp [setShaderColor, h]
  · simp [setShaderTexture, h]
  · simp [setTextureUVScale, h]
  · intro hne hfound
    have hlen : 0 < s.objectMaterials.length := List.length_pos.mpr hne
    simp [setShaderMaterial, hlen, hfound]

/-- C10 witness: with the shader pointer null and `"wood"` defined, the four
guarded setters send nothing while `SetShaderMaterial` still sends its
uniforms. -/
theorem c10_null_shader_guards_witness :
    setTransformations stateWoodNoShader (1, 1, 1) 0 0 0 (0, 0, 0) = [] ∧
    setShaderColor stateWoodNoShader 1 0 0 1 = [] ∧
    setShaderTexture stateWoodNoShader "table" = [] ∧
    setTextureUVScale stateWoodNoShader 1 1 = [] ∧
    setShaderMaterial stateWoodNoShader junkQ "wood" ≠ [] := by
  have h := c10_null_shader_guards stateWoodNoShader junkQ (1, 1, 1) (0, 0, 0)
    0 0 0 1 0 0 1 1 1 "table" "wood" rfl
  exact ⟨h.1, h.2.1, h.2.2.1, h.2.2.2.1,
    h.2.2.2.2 (by simp [stateWoodNoShader, stateWood]) rfl⟩

end SceneMgr
